import Mathlib

/-!
Shallow embedding of the TerraScope land-health classification and
recommendation engine.  Numeric readings are modelled as rationals; the
tier labels are the exact strings the source returns.

Sources embedded here:
  * `classify_land`, `get_suggestion` from `src/app.py`
  * `classify_status` from `src/dashboard.py`
  * `estimate_carbon_emission` from `src/backend/utils/carbon.py`
  * the sustainability-index computation of `add_data` in `src/backend/main.py`
Python's `round(x, 2)` (round half to even at two decimals) is modelled by
`round2` below.
-/

namespace Terrascope

/-- Embedding of `classify_land(veg_index, soil_moisture, temp)` from
`src/app.py`: Degraded-first threshold cascade. -/
def classify_land (veg_index soil_moisture temp : ℚ) : String :=
  if veg_index < 0.3 ∨ soil_moisture < 20 ∨ temp > 35 then "Degraded"
  else if veg_index < 0.5 ∨ soil_moisture < 35 then "At Risk"
  else "Healthy"

/-- Embedding of `get_suggestion(status)` from `src/app.py`: pure lookup on
the tier label; any unknown label falls through to the healthy message. -/
def get_suggestion (status : String) : String :=
  if status = "Degraded" then
    "Recommend: Reforestation or irrigation to restore soil health."
  else if status = "At Risk" then
    "Recommend: Mulching, cover crops, or moderate irrigation."
  else "Land is healthy. Maintain current practices."

/-- Embedding of `classify_status(row)` from `src/dashboard.py`
(healthy-first variant, thresholds 40 and 0.6/0.4), applied to the numeric
fields it extracts from the row; returns the (status, suggestion) pair. -/
def classify_status (soil veg : ℚ) : String × String :=
  if 40 ≤ soil ∧ 0.6 ≤ veg then
    ("Healthy", "Maintain current practices")
  else if (20 ≤ soil ∧ soil < 40) ∨ (0.4 ≤ veg ∧ veg < 0.6) then
    ("At Risk", "Use cover crops or moderate irrigation")
  else
    ("Degraded", "Reforestation or intensive irrigation")

/-- Round half to even to the nearest integer, as Python's `round` does. -/
def roundHalfEven (q : ℚ) : ℤ :=
  if q - ⌊q⌋ < 1/2 then ⌊q⌋
  else if 1/2 < q - ⌊q⌋ then ⌊q⌋ + 1
  else if ⌊q⌋ % 2 = 0 then ⌊q⌋ else ⌊q⌋ + 1

/-- Python's `round(x, 2)`: round half to even at two decimal places. -/
def round2 (q : ℚ) : ℚ := (roundHalfEven (q * 100) : ℚ) / 100

/-- Result record of `estimate_carbon_emission` in
`src/backend/utils/carbon.py`. -/
structure CarbonResult where
  status : String
  suggestion : String
  estimated_emission : ℚ
  deriving DecidableEq, Repr

/-- Embedding of `estimate_carbon_emission(soil_moisture, vegetation_index)`
from `src/backend/utils/carbon.py`: status and suggestion from the
soil-moisture cascade, emission `round((1 - vegetation_index) * 10, 2)`. -/
def estimate_carbon_emission (soil_moisture veg_index : ℚ) : CarbonResult :=
  if soil_moisture < 20 then
    { status := "Degraded",
      suggestion := "Reforestation or irrigation needed.",
      estimated_emission := round2 ((1 - veg_index) * 10) }
  else if soil_moisture < 35 then
    { status := "At Risk",
      suggestion := "Mulching, cover crops, or moderate irrigation.",
      estimated_emission := round2 ((1 - veg_index) * 10) }
  else
    { status := "Healthy",
      suggestion := "Land is healthy. Maintain current practices.",
      estimated_emission := round2 ((1 - veg_index) * 10) }

/-- Embedding of the sustainability-index computation of `add_data` in
`src/backend/main.py`:
`round((soil_moisture * 0.4 + vegetation_index * 0.6) * 100, 2)`. -/
def sustainability_index (soil veg : ℚ) : ℚ :=
  round2 ((soil * 0.4 + veg * 0.6) * 100)

/-- Spec-side formula for the sustainability index, for comparison with the
code's `sustainability_index`: the vegetation index is first scaled to a
0-100 percentage, then blended, `round(soil * 0.4 + (veg * 100) * 0.6, 2)`. -/
def specSustainabilityIndex (soil veg : ℚ) : ℚ :=
  round2 (soil * 0.4 + (veg * 100) * 0.6)

/-- Severity rank of a tier label: Degraded is worst, Healthy is best. -/
def severity (status : String) : ℕ :=
  if status = "Degraded" then 2 else if status = "At Risk" then 1 else 0

lemma severity_le_two (status : String) : severity status ≤ 2 := by
  unfold severity; split_ifs <;> omega

lemma le_roundHalfEven (n : ℤ) (q : ℚ) (h : (n : ℚ) ≤ q) :
    n ≤ roundHalfEven q := by
  have hf : n ≤ ⌊q⌋ := Int.le_floor.mpr h
  unfold roundHalfEven
  split_ifs <;> omega

lemma roundHalfEven_le (n : ℤ) (q : ℚ) (h : q ≤ (n : ℚ)) :
    roundHalfEven q ≤ n := by
  have hf : ⌊q⌋ ≤ n := by
    have := Int.floor_le_floor (α := ℚ) h
    simpa using this
  unfold roundHalfEven
  split_ifs with h1 h2
  · exact hf
  · by_contra hc
    push_neg at hc
    have heq : ⌊q⌋ = n := le_antisymm hf (by omega)
    have heq' : (⌊q⌋ : ℚ) = (n : ℚ) := by exact_mod_cast heq
    have hfl : (⌊q⌋ : ℚ) ≤ q := Int.floor_le q
    rw [heq'] at h2
    linarith
  · exact hf
  · by_contra hc
    push_neg at hc
    have heq : ⌊q⌋ = n := le_antisymm hf (by omega)
    have heq' : (⌊q⌋ : ℚ) = (n : ℚ) := by exact_mod_cast heq
    push_neg at h1
    rw [heq'] at h1
    linarith

lemma roundHalfEven_intCast (n : ℤ) : roundHalfEven (n : ℚ) = n := by
  unfold roundHalfEven
  rw [Int.floor_intCast]
  norm_num

lemma round2_of_mul_eq (q : ℚ) (n : ℤ) (h : q * 100 = (n : ℚ)) :
    round2 q = (n : ℚ) / 100 := by
  unfold round2
  rw [h, roundHalfEven_intCast]

/-- C1: classify_land evaluates the tiers most-severe-first: it returns
Degraded exactly when `veg < 0.3 ∨ soil < 20 ∨ temp > 35`; otherwise
At Risk exactly when `veg < 0.5 ∨ soil < 35`; otherwise Healthy. -/
theorem classify_land_tier_characterization (v s t : ℚ) :
    (classify_land v s t = "Degraded" ↔ (v < 0.3 ∨ s < 20 ∨ t > 35)) ∧
    (classify_land v s t = "At Risk" ↔
      (¬(v < 0.3 ∨ s < 20 ∨ t > 35) ∧ (v < 0.5 ∨ s < 35))) ∧
    (classify_land v s t = "Healthy" ↔
      (¬(v < 0.3 ∨ s < 20 ∨ t > 35) ∧ ¬(v < 0.5 ∨ s < 35))) := by
  unfold classify_land
  split_ifs with h1 h2 <;> simp_all

/-- C2 counterexample: at soil_moisture = 20 and vegetation_index = 0.5 with
temperature 25, classify_land does not return Degraded (the `< 20` cutoff is
strict, so exactly 20 escapes the Degraded tier). -/
theorem classify_land_twenty_not_degraded :
    classify_land 0.5 20 25 ≠ "Degraded" := by
  unfold classify_land
  norm_num
  decide

/-- C2 amended: at soil_moisture = 20 and vegetation_index = 0.5 with
temperature 25, classify_land returns At Risk (soil_moisture = 20 escapes
the Degraded cutoff but satisfies the At Risk cutoff `soil < 35`). -/
theorem classify_land_twenty_at_risk :
    classify_land 0.5 20 25 = "At Risk" := by
  unfold classify_land
  norm_num

/-- C3 counterexample: at soil_moisture = 100 and vegetation_index = 0, the
code's sustainability index is 4000, while the spec formula
`round(soil * 0.4 + (veg * 100) * 0.6, 2)` gives 40; in particular the code's
value is not bounded by 100. -/
theorem sustainability_index_spec_counterexample :
    sustainability_index 100 0 = 4000 ∧
    specSustainabilityIndex 100 0 = 40 ∧
    ¬ sustainability_index 100 0 ≤ 100 := by
  have h1 : sustainability_index 100 0 = 4000 := by
    unfold sustainability_index
    rw [round2_of_mul_eq _ 400000 (by norm_num)]
    norm_num
  have h2 : specSustainabilityIndex 100 0 = 40 := by
    unfold specSustainabilityIndex
    rw [round2_of_mul_eq _ 4000 (by norm_num)]
    norm_num
  exact ⟨h1, h2, by rw [h1]; norm_num⟩

/-- C3 amended: for soil_moisture in [0,100] and vegetation_index in [0,1],
the sustainability index computed by the add operation equals
`round((soil * 0.4 + veg * 0.6) * 100, 2) = round(soil * 40 + veg * 60, 2)`
(the whole blend, soil term included, is scaled by 100) and lies in
[0, 4060], not [0, 100]. -/
theorem sustainability_index_formula (soil veg : ℚ)
    (h1 : 0 ≤ soil) (h2 : soil ≤ 100) (h3 : 0 ≤ veg) (h4 : veg ≤ 1) :
    sustainability_index soil veg = round2 (soil * 40 + veg * 60) ∧
    0 ≤ sustainability_index soil veg ∧
    sustainability_index soil veg ≤ 4060 := by
  have harg : (soil * 0.4 + veg * 0.6) * 100 = soil * 40 + veg * 60 := by ring
  refine ⟨by unfold sustainability_index; rw [harg], ?_, ?_⟩
  · unfold sustainability_index round2
    have h0 : (0 : ℤ) ≤ roundHalfEven ((soil * 0.4 + veg * 0.6) * 100 * 100) := by
      apply le_roundHalfEven
      push_cast
      nlinarith
    have h0' : (0 : ℚ) ≤
        ((roundHalfEven ((soil * 0.4 + veg * 0.6) * 100 * 100) : ℤ) : ℚ) := by
      exact_mod_cast h0
    exact div_nonneg h0' (by norm_num)
  · unfold sustainability_index round2
    have hub : roundHalfEven ((soil * 0.4 + veg * 0.6) * 100 * 100) ≤ 406000 := by
      apply roundHalfEven_le
      push_cast
      nlinarith
    have hub' : ((roundHalfEven ((soil * 0.4 + veg * 0.6) * 100 * 100) : ℤ) : ℚ)
        ≤ 406000 := by exact_mod_cast hub
    rw [div_le_iff₀ (by norm_num : (0 : ℚ) < 100)]
    linarith

/-- C3 witness: the amended formula and bounds instantiated at
soil_moisture = 50, vegetation_index = 0.5. -/
theorem sustainability_index_formula_witness :
    sustainability_index 50 0.5 = round2 (50 * 40 + 0.5 * 60) ∧
    0 ≤ sustainability_index 50 0.5 ∧
    sustainability_index 50 0.5 ≤ 4060 :=
  sustainability_index_formula 50 0.5 (by norm_num) (by norm_num)
    (by norm_num) (by norm_num)

/-- C4: values exactly equal to a degradation threshold belong to the better
tier (every cutoff is strict less-than): classify_land at vegetation 0.3 and
soil 35 returns At Risk; no input on or above all Degraded thresholds is
Degraded; inputs on or above all At Risk thresholds are Healthy. -/
theorem classify_land_strict_boundaries :
    classify_land 0.3 35 25 = "At Risk" ∧
    (∀ v s t : ℚ, 0.3 ≤ v → 20 ≤ s → t ≤ 35 →
      classify_land v s t ≠ "Degraded") ∧
    (∀ v s t : ℚ, 0.5 ≤ v → 35 ≤ s → t ≤ 35 →
      classify_land v s t = "Healthy") := by
  refine ⟨by unfold classify_land; norm_num, ?_, ?_⟩
  · intro v s t hv hs ht
    have hA : ¬(v < 0.3 ∨ s < 20 ∨ t > 35) := by
      push_neg
      exact ⟨hv, hs, ht⟩
    unfold classify_land
    rw [if_neg hA]
    split_ifs <;> decide
  · intro v s t hv hs ht
    have hA : ¬(v < 0.3 ∨ s < 20 ∨ t > 35) := by
      push_neg
      exact ⟨by linarith, by linarith, ht⟩
    have hB : ¬(v < 0.5 ∨ s < 35) := by
      push_neg
      exact ⟨hv, hs⟩
    unfold classify_land
    rw [if_neg hA, if_neg hB]

/-- C5: supplying a temperature can only worsen, never improve, the tier:
for every input, the tier with any temperature t is at least as severe as
the tier with the default temperature 25. -/
theorem classify_land_temp_only_worsens (v s t : ℚ) :
    severity (classify_land v s 25) ≤ severity (classify_land v s t) := by
  rcases le_or_lt t 35 with ht | ht
  · have heq : classify_land v s t = classify_land v s 25 := by
      unfold classify_land
      have h1 : ¬ t > 35 := not_lt.mpr ht
      have h2 : ¬ (25 : ℚ) > 35 := by norm_num
      simp only [h1, h2, or_false]
    rw [heq]
  · have he : classify_land v s t = "Degraded" := by
      unfold classify_land
      rw [if_pos (Or.inr (Or.inr ht))]
    rw [he]
    calc severity (classify_land v s 25) ≤ 2 := severity_le_two _
      _ = severity "Degraded" := by decide

/-- C6: the tier is monotonic in soil_moisture: with vegetation and
temperature fixed, a lower soil moisture is classified at least as severely
as a higher one. -/
theorem classify_land_soil_monotone (v t s1 s2 : ℚ) (h : s1 ≤ s2) :
    severity (classify_land v s2 t) ≤ severity (classify_land v s1 t) := by
  by_cases hA1 : v < 0.3 ∨ s1 < 20 ∨ t > 35
  · have e1 : classify_land v s1 t = "Degraded" := by
      unfold classify_land
      rw [if_pos hA1]
    rw [e1]
    calc severity (classify_land v s2 t) ≤ 2 := severity_le_two _
      _ = severity "Degraded" := by decide
  · have hA2 : ¬(v < 0.3 ∨ s2 < 20 ∨ t > 35) := by
      push_neg at hA1 ⊢
      exact ⟨hA1.1, by linarith [hA1.2.1], hA1.2.2⟩
    by_cases hB1 : v < 0.5 ∨ s1 < 35
    · have e1 : classify_land v s1 t = "At Risk" := by
        unfold classify_land
        rw [if_neg hA1, if_pos hB1]
      rw [e1]
      unfold classify_land
      rw [if_neg hA2]
      by_cases hB2 : v < 0.5 ∨ s2 < 35
      · rw [if_pos hB2]
      · rw [if_neg hB2]
        decide
    · have hB2 : ¬(v < 0.5 ∨ s2 < 35) := by
        push_neg at hB1 ⊢
        exact ⟨hB1.1, by linarith [hB1.2]⟩
      have e1 : classify_land v s1 t = "Healthy" := by
        unfold classify_land
        rw [if_neg hA1, if_neg hB1]
      have e2 : classify_land v s2 t = "Healthy" := by
        unfold classify_land
        rw [if_neg hA2, if_neg hB2]
      rw [e1, e2]

/-- C6 witness: at vegetation 0.6 and temperature 25, lowering soil moisture
from 40 to 10 does not make the tier strictly better. -/
theorem classify_land_soil_monotone_witness :
    severity (classify_land 0.6 40 25) ≤ severity (classify_land 0.6 10 25) :=
  classify_land_soil_monotone 0.6 25 10 40 (by norm_num)

/-- C7: get_suggestion is total on the tiers the classifier produces (always
a non-empty string) and assigns pairwise distinct texts to the three tiers. -/
theorem get_suggestion_total_and_distinct :
    (∀ v s t : ℚ, get_suggestion (classify_land v s t) ≠ "") ∧
    get_suggestion "Degraded" ≠ get_suggestion "At Risk" ∧
    get_suggestion "Degraded" ≠ get_suggestion "Healthy" ∧
    get_suggestion "At Risk" ≠ get_suggestion "Healthy" := by
  refine ⟨?_, by decide, by decide, by decide⟩
  intro v s t
  unfold classify_land
  split_ifs <;> decide

/-- C8: for vegetation_index in [0,1], the carbon estimate equals
`round((1 - vegetation_index) * 10, 2)` (scale constant K = 10) and is
independent of soil_moisture. -/
theorem estimated_emission_formula (soil veg : ℚ)
    (h1 : 0 ≤ veg) (h2 : veg ≤ 1) :
    (estimate_carbon_emission soil veg).estimated_emission
        = round2 ((1 - veg) * 10) ∧
    (∀ s' : ℚ, (estimate_carbon_emission s' veg).estimated_emission
        = (estimate_carbon_emission soil veg).estimated_emission) := by
  constructor
  · unfold estimate_carbon_emission
    split_ifs <;> rfl
  · intro s'
    unfold estimate_carbon_emission
    split_ifs <;> rfl

/-- C8 witness: the emission formula and soil-independence instantiated at
soil_moisture = 50, vegetation_index = 0.5. -/
theorem estimated_emission_formula_witness :
    (estimate_carbon_emission 50 0.5).estimated_emission
        = round2 ((1 - 0.5) * 10) ∧
    (∀ s' : ℚ, (estimate_carbon_emission s' 0.5).estimated_emission
        = (estimate_carbon_emission 50 0.5).estimated_emission) :=
  estimated_emission_formula 50 0.5 (by norm_num) (by norm_num)

/-- C9: the two classifier variants disagree: at soil_moisture = 50 and
vegetation_index = 0.5 (temperature 25), classify_land returns Healthy while
classify_status returns At Risk. -/
theorem classifier_variants_disagree :
    classify_land 0.5 50 25 = "Healthy" ∧
    (classify_status 50 0.5).1 = "At Risk" ∧
    (classify_status 50 0.5).1 ≠ classify_land 0.5 50 25 := by
  have h1 : classify_land 0.5 50 25 = "Healthy" := by
    unfold classify_land
    norm_num
  have h2 : (classify_status 50 0.5).1 = "At Risk" := by
    unfold classify_status
    norm_num
  refine ⟨h1, h2, ?_⟩
  rw [h1, h2]
  decide

/-- C10: the status and suggestion produced by estimate_carbon_emission do
not depend on vegetation_index at all: any two vegetation values give the
same status and the same suggestion. -/
theorem carbon_status_independent_of_vegetation (soil v1 v2 : ℚ) :
    (estimate_carbon_emission soil v1).status
        = (estimate_carbon_emission soil v2).status ∧
    (estimate_carbon_emission soil v1).suggestion
        = (estimate_carbon_emission soil v2).suggestion := by
  unfold estimate_carbon_emission
  split_ifs <;> exact ⟨rfl, rfl⟩

end Terrascope
